import Mathlib

/-!
# backend/server.js of the event management dashboard

A shallow embedding of `src/backend/server.js`: the configuration read from the
environment, the Express middleware stack, the Socket.IO handlers and the
start-up sequence, followed by the properties proved about them.

Conventions.
* `process.env` (after `dotenv.config()`) is a list of name/value pairs.
* The Express and Socket.IO runtimes are libraries, not repository code. Their
  dispatch rules are written out as the functions `dispatch` and `step`; the
  handlers they call are transcribed from the source file.
* The routers and `authenticateToken` live in other files. They enter as a
  parameter `behave` giving the outcome of each handler on a request.
-/

namespace Server

/-! ## Environment and configuration (server.js lines 15 to 39) -/

/-- The process environment: variable names with their values. -/
abbrev Env := List (String × String)

/-- Reading `process.env.NAME`: `none` stands for `undefined`. -/
def getEnv (env : Env) (name : String) : Option String :=
  env.lookup name

/-- The JavaScript test `!v` on a value that is a string or `undefined`:
true for `undefined` and for the empty string. -/
def falsy (v : Option String) : Bool :=
  match v with
  | none => true
  | some s => s == ""

/-- The JavaScript expression `v || d` on a value that is a string or `undefined`. -/
def orElse (v : Option String) (d : String) : String :=
  match v with
  | none => d
  | some s => if s == "" then d else s

/-- Line 21: `const FRONTEND_URL = process.env.FRONTEND_URL || 'http://localhost:3000'`. -/
def FRONTEND_URL (env : Env) : String :=
  orElse (getEnv env "FRONTEND_URL") "http://localhost:3000"

/-- The options object handed to the `cors` middleware of Express. -/
structure CorsOptions where
  origin : String
  methods : List String
  allowedHeaders : List String
  credentials : Bool
  deriving DecidableEq, Repr

/-- The `cors` field of the options handed to `new Server(server, ...)`. -/
structure SocketCorsOptions where
  origin : String
  methods : List String
  deriving DecidableEq, Repr

/-- Lines 22 to 27: the argument of `cors(...)` in `app.use(cors(...))`. -/
def expressCors (env : Env) : CorsOptions :=
  { origin := FRONTEND_URL env
    methods := ["GET", "POST", "PUT", "DELETE", "OPTIONS"]
    allowedHeaders := ["Content-Type", "Authorization"]
    credentials := true }

/-- Lines 34 to 39: the `cors` option of the Socket.IO server. -/
def socketCors (env : Env) : SocketCorsOptions :=
  { origin := FRONTEND_URL env
    methods := ["GET", "POST"] }

/-- Line 81: `const PORT = process.env.PORT || 5000`. -/
def PORT (env : Env) : String :=
  orElse (getEnv env "PORT") "5000"

/-! ## Express middleware stack (lines 22 to 28 and 61 to 64) -/

/-- An HTTP request as the middleware stack sees it. The path is the list of its
segments, in lower case since Express compares mount paths without regard to
case: `/api/tasks/7` is `["api", "tasks", "7"]`. `user` is the identity a
middleware may attach to the request. -/
structure Request where
  method : String
  path : List String
  authorization : Option String
  user : Option String
  deriving DecidableEq, Repr

/-- The functions registered with `app.use`, by the names they have in the source. -/
inductive Handler where
  | cors
  | json
  | authRoutes
  | authenticateToken
  | eventRoutes
  | attendeeRoutes
  | taskRoutes
  deriving DecidableEq, Repr

/-- What a handler does with a request: call `next()` (handing on the request,
possibly changed), end the response with a status, or report an error with
`next(err)`, which skips every remaining handler of this stack. -/
inductive Outcome where
  | next (req : Request)
  | respond (status : Nat)
  | fail (status : Nat)
  deriving DecidableEq, Repr

/-- One entry of the Express stack: a mount path and the function mounted there. -/
structure Layer where
  mount : List String
  handler : Handler
  deriving DecidableEq, Repr

/-- The stack built by the `app.use` calls of server.js, in registration order.
`app.use(path, f, g)` registers `f` and then `g` under the same path. -/
def stack : List Layer :=
  [ ⟨[], .cors⟩,
    ⟨[], .json⟩,
    ⟨["api", "auth"], .authRoutes⟩,
    ⟨["api", "events"], .authenticateToken⟩,
    ⟨["api", "events"], .eventRoutes⟩,
    ⟨["api", "attendees"], .authenticateToken⟩,
    ⟨["api", "attendees"], .attendeeRoutes⟩,
    ⟨["api", "tasks"], .authenticateToken⟩,
    ⟨["api", "tasks"], .taskRoutes⟩ ]

/-- The three resource routers. -/
def isResourceRouter : Handler → Bool
  | .eventRoutes => true
  | .attendeeRoutes => true
  | .taskRoutes => true
  | _ => false

/-- A layer mounted at `mount` handles the paths that start with the segments of `mount`. -/
def mountMatches (mount path : List String) : Bool :=
  mount.isPrefixOf path

/-- Express dispatch: walk the stack in order, call each layer whose mount matches
the request path, and go on to the following layers only when the handler called
`next()`. The result is the list of handlers called, each with its outcome. -/
def dispatch (behave : Handler → Request → Outcome) : List Layer → Request → List (Handler × Outcome)
  | [], _ => []
  | l :: ls, req =>
    if mountMatches l.mount req.path then
      match behave l.handler req with
      | .next req1 => (l.handler, .next req1) :: dispatch behave ls req1
      | o => [(l.handler, o)]
    else dispatch behave ls req

/-! ## Socket.IO hub (lines 34 to 58) -/

/-- The value of `socket.id`. -/
abbrev SocketId := String

/-- The JSON text of the value carried by a message. -/
abbrev Payload := String

/-- What a client presents when it opens a socket. -/
structure Handshake where
  origin : Option String
  credential : Option String
  deriving DecidableEq, Repr

/-- A named event with its payload. -/
structure Message where
  event : String
  payload : Payload
  deriving DecidableEq, Repr

/-- Observable actions of the server. -/
inductive Effect where
  | log (line : String)
  | send (dest : SocketId) (msg : Message)
  | invoked (h : Handler) (o : Outcome)
  deriving DecidableEq, Repr

/-- What can happen to the running server: a client opens a socket, a socket
closes, a connected client sends an application event, or an HTTP request arrives. -/
inductive Input where
  | connect (sid : SocketId) (hs : Handshake)
  | disconnect (sid : SocketId)
  | message (sid : SocketId) (event : String) (payload : Payload)
  | http (req : Request)
  deriving DecidableEq, Repr

/-- The state of the Socket.IO server: the ids of the sockets of the default
namespace, in the order they connected. server.js itself keeps no other state. -/
structure Hub where
  connected : List SocketId
  deriving DecidableEq, Repr

/-- The connection middlewares registered with `io.use`. server.js registers none:
the server is built from the CORS options alone. -/
def ioMiddlewares : List (Handshake → Bool) := []

/-- A connection attempt is admitted when every registered middleware accepts it.
The CORS option of the server only sets response headers for browsers; it refuses
no connection, so the origin plays no part here. -/
def admits (hs : Handshake) : Bool :=
  ioMiddlewares.all (fun m => m hs)

/-- The call `io.emit(event, payload)`: one message to every connected socket. -/
def ioEmit (hub : Hub) (event : String) (payload : Payload) : List Effect :=
  hub.connected.map (fun sid => Effect.send sid ⟨event, payload⟩)

/-- Lines 45 to 58, the body of the connection handler: it logs the id and
registers the two listeners below. It sends nothing. -/
def onConnection (sid : SocketId) : List Effect :=
  [.log ("User connected: " ++ sid)]

/-- Lines 49 to 51, the disconnect listener. -/
def onDisconnect (sid : SocketId) : List Effect :=
  [.log ("User disconnected: " ++ sid)]

/-- Lines 54 to 57, the taskUpdated listener. -/
def onTaskUpdated (hub : Hub) (task : Payload) : List Effect :=
  .log ("Task Updated: " ++ task) :: ioEmit hub "taskUpdated" task

/-- An application event arriving on a connected socket runs the listener
registered under its name, if there is one. -/
def onMessage (hub : Hub) (event : String) (payload : Payload) : List Effect :=
  if event = "taskUpdated" then onTaskUpdated hub payload else []

/-- One step of the running server. Socket ids are generated fresh by the
runtime, so a connect with an id already present does nothing; events and
disconnects of a socket that is not connected do nothing either. -/
def step (behave : Handler → Request → Outcome) (hub : Hub) : Input → Hub × List Effect
  | .connect sid hs =>
    if sid ∈ hub.connected then (hub, [])
    else if admits hs then (⟨hub.connected ++ [sid]⟩, onConnection sid)
    else (hub, [])
  | .disconnect sid =>
    if sid ∈ hub.connected then (⟨hub.connected.filter (fun x => x != sid)⟩, onDisconnect sid)
    else (hub, [])
  | .message sid event payload =>
    if sid ∈ hub.connected then (hub, onMessage hub event payload)
    else (hub, [])
  | .http req => (hub, (dispatch behave stack req).map (fun p => Effect.invoked p.1 p.2))

/-- A run of the server over a sequence of inputs: the final state and all effects in order. -/
def run (behave : Handler → Request → Outcome) (hub : Hub) : List Input → Hub × List Effect
  | [] => (hub, [])
  | i :: rest =>
    ((run behave (step behave hub i).1 rest).1,
      (step behave hub i).2 ++ (run behave (step behave hub i).1 rest).2)

/-- The server right after start: nobody is connected. -/
def Hub.empty : Hub := ⟨[]⟩

/-- The messages delivered to one socket, in order. -/
def inbox (sid : SocketId) (effects : List Effect) : List Message :=
  effects.filterMap (fun e =>
    match e with
    | .send dest msg => if dest = sid then some msg else none
    | _ => none)

/-- All outbound messages among the effects, with their addressees. -/
def sends (effects : List Effect) : List (SocketId × Message) :=
  effects.filterMap (fun e =>
    match e with
    | .send dest msg => some (dest, msg)
    | _ => none)

/-! ## Start-up (lines 66 to 84) -/

/-- How the attempt to reach the storage ends: the promise returned by
`mongoose.connect` resolves, or it rejects with an error message. -/
inductive StorageOutcome where
  | connected
  | failed (message : String)
  deriving DecidableEq, Repr

/-- How the call `server.listen(PORT, ...)` of line 82 ends. Node and the operating
system decide this from the port value: the server starts listening, or the call
throws at once (a port out of range, such as 65536), or the bind fails right
after the script and the server emits an error that nobody listens for (the port
is taken). server.js catches neither failure. -/
inductive ListenOutcome where
  | listening
  | threw (message : String)
  | bindFailed (message : String)
  deriving DecidableEq, Repr

/-- Observable actions of the start-up sequence. `listen` records that the server
began listening on the port; `uncaught` is the report of an exception nobody
caught, after which Node ends the process with status 1. -/
inductive StartupEvent where
  | consoleError (line : String)
  | consoleLog (line : String)
  | exit (code : Nat)
  | mongooseConnect (uri : String)
  | listen (port : String)
  | uncaught (message : String)
  deriving DecidableEq, Repr

/-- Lines 66 to 84. The script runs to its end before any callback does: it checks
MONGO_URI (and exits at once when the check fails), starts the storage connection
and calls `server.listen`. When that call throws, or the bind fails, the exception
is caught by nobody and the process ends with status 1 before any callback of the
connection promise can run. Otherwise the server listens, and the listen callback
and then the callbacks of the connection promise run. An exit ends the trace. -/
def startup (env : Env) (storage : StorageOutcome) (listen : ListenOutcome) :
    List StartupEvent :=
  if falsy (getEnv env "MONGO_URI") then
    [.consoleError "Error: MONGO_URI is not defined in .env", .exit 1]
  else
    .mongooseConnect (orElse (getEnv env "MONGO_URI") "") ::
    (match listen with
     | .threw message => [.uncaught message, .exit 1]
     | .bindFailed message => [.uncaught message, .exit 1]
     | .listening =>
       [.listen (PORT env), .consoleLog ("Server running on port " ++ PORT env)] ++
       (match storage with
        | .connected => [.consoleLog "MongoDB Connected"]
        | .failed message =>
          [.consoleError ("Error connecting to MongoDB: " ++ message), .exit 1]))

/-- The process exits with a non-zero status, and no `listen` comes before that exit. -/
def exitsBeforeListening : List StartupEvent → Bool
  | [] => false
  | .exit code :: _ => code != 0
  | .listen _ :: _ => false
  | _ :: rest => exitsBeforeListening rest

/-- The server began listening at some point of the trace. -/
def listens (trace : List StartupEvent) : Bool :=
  trace.any (fun e => match e with | .listen _ => true | _ => false)

/-- The storage connection was attempted at some point of the trace. -/
def connectsStorage (trace : List StartupEvent) : Bool :=
  trace.any (fun e => match e with | .mongooseConnect _ => true | _ => false)

/-- The process exits at some point of the trace. -/
def exits (trace : List StartupEvent) : Bool :=
  trace.any (fun e => match e with | .exit _ => true | _ => false)

/-- An environment that sets the storage location and nothing else: in particular
no variable holding a token verification key. -/
def envStorageOnly : Env := [("MONGO_URI", "mongodb://127.0.0.1:27017/events")]

/-- No outbound message comes before the first call of the task router. Tasks are
mutated nowhere but inside the task router, so this holds of every trace in which
each broadcast follows a completed task mutation. -/
def noSendBeforeTaskRouter : List Effect → Bool
  | [] => true
  | .send _ _ :: _ => false
  | .invoked .taskRoutes _ :: _ => true
  | _ :: rest => noSendBeforeTaskRouter rest

/-- A handler behaviour used in examples: every handler passes the request on,
except that `authenticateToken` answers 401 when no Authorization header is present. -/
def sampleBehave : Handler → Request → Outcome
  | .authenticateToken, req =>
    match req.authorization with
    | none => .respond 401
    | some u => .next { req with user := some u }
  | _, req => .next req

example : (run sampleBehave Hub.empty
    [.connect "a" ⟨none, none⟩, .connect "b" ⟨none, none⟩, .message "a" "taskUpdated" "t"]).2
    = [.log "User connected: a", .log "User connected: b", .log "Task Updated: t",
       .send "a" ⟨"taskUpdated", "t"⟩, .send "b" ⟨"taskUpdated", "t"⟩] := by decide

example : (dispatch sampleBehave stack ⟨"GET", ["api", "tasks", "7"], none, none⟩).map Prod.fst
    = [.cors, .json, .authenticateToken] := by decide

example : startup [] .connected .listening
    = [.consoleError "Error: MONGO_URI is not defined in .env", .exit 1] := by decide

example : startup [("MONGO_URI", "mongodb://127.0.0.1:27017/events"), ("PORT", "65536")]
    .connected (.threw "ERR_SOCKET_BAD_PORT")
    = [.mongooseConnect "mongodb://127.0.0.1:27017/events",
       .uncaught "ERR_SOCKET_BAD_PORT", .exit 1] := by decide

/-! ## Properties -/

/-- C9. The origin allowed by the Express CORS middleware and the origin allowed by
the Socket.IO server are the same value: the value of FRONTEND_URL when that
variable is set and not empty, and http://localhost:3000 otherwise. -/
theorem cors_origin_shared (env : Env) :
    (expressCors env).origin = (socketCors env).origin ∧
    (∀ v, getEnv env "FRONTEND_URL" = some v → v ≠ "" → (expressCors env).origin = v) ∧
    (getEnv env "FRONTEND_URL" = none ∨ getEnv env "FRONTEND_URL" = some "" →
      (expressCors env).origin = "http://localhost:3000") := by
  refine ⟨rfl, ?_, ?_⟩
  · intro v hv hne
    simp [expressCors, FRONTEND_URL, orElse, hv, hne]
  · intro h
    rcases h with h | h <;> simp [expressCors, FRONTEND_URL, orElse, h]

/-- The shared origin evaluated on an environment that sets FRONTEND_URL and on the empty one. -/
theorem cors_origin_shared_witness :
    (expressCors [("FRONTEND_URL", "https://app.example")]).origin = "https://app.example" ∧
    (expressCors []).origin = "http://localhost:3000" :=
  ⟨(cors_origin_shared [("FRONTEND_URL", "https://app.example")]).2.1 "https://app.example"
      (by decide) (by decide),
   (cors_origin_shared []).2.2 (Or.inl (by decide))⟩

/-! ### Start-up -/

/-- C8, the claim refuted. With MONGO_URI set, the port bound and the storage
unreachable, the server listens before the process exits with status 1, so the
exit does not come before listening. With MONGO_URI set, the port bound, the
storage reachable and no verification key in the environment, the server listens
and never exits. -/
theorem startup_not_always_fatal_before_listen :
    startup envStorageOnly (.failed "connect ECONNREFUSED") .listening
      = [.mongooseConnect "mongodb://127.0.0.1:27017/events", .listen "5000",
         .consoleLog "Server running on port 5000",
         .consoleError "Error connecting to MongoDB: connect ECONNREFUSED", .exit 1] ∧
    exitsBeforeListening (startup envStorageOnly (.failed "connect ECONNREFUSED") .listening)
      = false ∧
    listens (startup envStorageOnly .connected .listening) = true ∧
    exits (startup envStorageOnly .connected .listening) = false := by
  decide

/-- C8 as amended. When MONGO_URI is unset or empty the process exits with status 1
before the server listens: the trace has a non-zero exit with no listen before it,
the server never listens and the storage connection is never attempted. When
MONGO_URI is set and the storage connection fails, the trace ends with an exit of
status 1. When MONGO_URI is set, the storage connection succeeds and the call of
`server.listen` succeeds, the process does not exit: no verification key is
looked for. -/
theorem startup_fatal_cases (env : Env) (storage : StorageOutcome) (listen : ListenOutcome) :
    (falsy (getEnv env "MONGO_URI") = true →
      exitsBeforeListening (startup env storage listen) = true ∧
      listens (startup env storage listen) = false ∧
      connectsStorage (startup env storage listen) = false) ∧
    (falsy (getEnv env "MONGO_URI") = false → ∀ message, storage = .failed message →
      (startup env storage listen).getLast? = some (.exit 1)) ∧
    (falsy (getEnv env "MONGO_URI") = false → storage = .connected → listen = .listening →
      exits (startup env storage listen) = false) := by
  refine ⟨?_, ?_, ?_⟩
  · intro h
    simp [startup, h, exitsBeforeListening, listens, connectsStorage]
  · intro h message hs
    subst hs
    cases listen <;> simp [startup, h, List.getLast?_cons_cons]
  · intro h hs hl
    subst hs
    subst hl
    simp [startup, h, exits]

/-- The three start-up cases on concrete environments. -/
theorem startup_fatal_cases_witness :
    (exitsBeforeListening (startup [("MONGO_URI", "")] .connected .listening) = true ∧
      listens (startup [("MONGO_URI", "")] .connected .listening) = false ∧
      connectsStorage (startup [("MONGO_URI", "")] .connected .listening) = false) ∧
    (startup envStorageOnly (.failed "timeout") .listening).getLast? = some (.exit 1) ∧
    exits (startup envStorageOnly .connected .listening) = false :=
  ⟨(startup_fatal_cases [("MONGO_URI", "")] .connected .listening).1 (by decide),
   (startup_fatal_cases envStorageOnly (.failed "timeout") .listening).2.1 (by decide)
     "timeout" rfl,
   (startup_fatal_cases envStorageOnly .connected .listening).2.2 (by decide) rfl rfl⟩

/-! ### Hub: auxiliary facts -/

theorem inbox_append (sid : SocketId) (xs ys : List Effect) :
    inbox sid (xs ++ ys) = inbox sid xs ++ inbox sid ys := by
  simp [inbox, List.filterMap_append]

theorem sends_ioEmit (hub : Hub) (event : String) (payload : Payload) :
    sends (ioEmit hub event payload)
      = hub.connected.map (fun sid => (sid, (⟨event, payload⟩ : Message))) := by
  unfold sends ioEmit
  induction hub.connected with
  | nil => rfl
  | cons x xs ih => simp [List.filterMap_cons, ih]

theorem inbox_emit_list (sid : SocketId) (msg : Message) (l : List SocketId) :
    inbox sid (l.map (fun x => Effect.send x msg)) = List.replicate (l.count sid) msg := by
  induction l with
  | nil => rfl
  | cons x xs ih =>
    have hcons : inbox sid ((x :: xs).map (fun x => Effect.send x msg))
        = (if x = sid then [msg] else []) ++ inbox sid (xs.map (fun x => Effect.send x msg)) := by
      by_cases h : x = sid <;> simp [inbox, List.filterMap_cons, h]
    rw [hcons, ih]
    by_cases h : x = sid
    · subst h
      simp [List.replicate_succ]
    · have h2 : (x == sid) = false := by simpa using h
      simp [h, List.count_cons, h2]

theorem inbox_ioEmit_of_mem (hub : Hub) (hnodup : hub.connected.Nodup) (sid : SocketId)
    (hmem : sid ∈ hub.connected) (event : String) (payload : Payload) :
    inbox sid (ioEmit hub event payload) = [⟨event, payload⟩] := by
  unfold ioEmit
  rw [inbox_emit_list, List.count_eq_one_of_mem hnodup hmem]
  rfl

theorem inbox_ioEmit_of_not_mem (hub : Hub) (sid : SocketId)
    (hmem : sid ∉ hub.connected) (event : String) (payload : Payload) :
    inbox sid (ioEmit hub event payload) = [] := by
  unfold ioEmit
  rw [inbox_emit_list, List.count_eq_zero_of_not_mem hmem]
  rfl

theorem step_message_taskUpdated (behave : Handler → Request → Outcome) (hub : Hub)
    (sender : SocketId) (hsender : sender ∈ hub.connected) (task : Payload) :
    step behave hub (.message sender "taskUpdated" task)
      = (hub, .log ("Task Updated: " ++ task) :: ioEmit hub "taskUpdated" task) := by
  simp [step, hsender, onMessage, onTaskUpdated]

theorem step_message_fst (behave : Handler → Request → Outcome) (hub : Hub)
    (sender : SocketId) (event : String) (payload : Payload) :
    (step behave hub (.message sender event payload)).1 = hub := by
  by_cases h : sender ∈ hub.connected <;> simp [step, h]

theorem step_nodup (behave : Handler → Request → Outcome) (hub : Hub) (input : Input)
    (hnodup : hub.connected.Nodup) : (step behave hub input).1.connected.Nodup := by
  cases input with
  | connect sid hs =>
    unfold step
    by_cases h : sid ∈ hub.connected
    · simpa [h] using hnodup
    · by_cases ha : admits hs = true
      · simp only [h, ha, if_true, if_false]
        exact List.Nodup.append hnodup (List.nodup_singleton sid) (by simpa using h)
      · simpa [h, ha] using hnodup
  | disconnect sid =>
    unfold step
    by_cases h : sid ∈ hub.connected
    · simp only [h, if_true]
      exact hnodup.filter _
    · simpa [h] using hnodup
  | message sid event payload =>
    rw [step_message_fst]
    exact hnodup
  | http req => exact hnodup

theorem run_nodup (behave : Handler → Request → Outcome) (inputs : List Input) :
    ∀ hub : Hub, hub.connected.Nodup → (run behave hub inputs).1.connected.Nodup := by
  induction inputs with
  | nil => intro hub h; exact h
  | cons i rest ih =>
    intro hub h
    exact ih _ (step_nodup behave hub i h)

theorem run_append (behave : Handler → Request → Outcome) (xs ys : List Input) :
    ∀ hub : Hub, run behave hub (xs ++ ys)
      = ((run behave (run behave hub xs).1 ys).1,
         (run behave hub xs).2 ++ (run behave (run behave hub xs).1 ys).2) := by
  induction xs with
  | nil => intro hub; simp [run]
  | cons i rest ih =>
    intro hub
    simp [run, ih, List.append_assoc]

/-! ### Hub: the broadcast -/

/-- C1. When a connected socket sends a taskUpdated message carrying `task`, the
handler produces exactly as many outbound messages as there are connected sockets,
every connected socket (the sender included) gets exactly one, nobody else gets
any, and each message has the event name taskUpdated and the payload `task`. -/
theorem taskUpdated_fanout (behave : Handler → Request → Outcome) (hub : Hub)
    (sender : SocketId) (task : Payload)
    (hnodup : hub.connected.Nodup) (hsender : sender ∈ hub.connected) :
    (sends (step behave hub (.message sender "taskUpdated" task)).2).length
        = hub.connected.length ∧
    (∀ sid, sid ∈ hub.connected →
      inbox sid (step behave hub (.message sender "taskUpdated" task)).2
        = [⟨"taskUpdated", task⟩]) ∧
    (∀ sid, sid ∉ hub.connected →
      inbox sid (step behave hub (.message sender "taskUpdated" task)).2 = []) ∧
    (∀ p, p ∈ sends (step behave hub (.message sender "taskUpdated" task)).2 →
      p.2.event = "taskUpdated" ∧ p.2.payload = task) := by
  rw [step_message_taskUpdated behave hub sender hsender task]
  have hlog : ∀ sid (rest : List Effect),
      inbox sid (Effect.log ("Task Updated: " ++ task) :: rest) = inbox sid rest := by
    intro sid rest
    simp [inbox, List.filterMap_cons]
  have hsends : sends (Effect.log ("Task Updated: " ++ task) :: ioEmit hub "taskUpdated" task)
      = hub.connected.map (fun sid => (sid, (⟨"taskUpdated", task⟩ : Message))) := by
    rw [← sends_ioEmit]
    simp [sends, List.filterMap_cons]
  refine ⟨?_, ?_, ?_, ?_⟩
  · simp only [hsends, List.length_map]
  · intro sid hmem
    simp only [hlog]
    exact inbox_ioEmit_of_mem hub hnodup sid hmem _ _
  · intro sid hmem
    simp only [hlog]
    exact inbox_ioEmit_of_not_mem hub sid hmem _ _
  · intro p hp
    simp only [hsends, List.mem_map] at hp
    obtain ⟨sid, _, rfl⟩ := hp
    exact ⟨rfl, rfl⟩

/-- The fan-out with three sockets connected and the second one sending. -/
theorem taskUpdated_fanout_witness :
    (sends (step sampleBehave ⟨["a", "b", "c"]⟩ (.message "b" "taskUpdated" "t")).2).length = 3 ∧
    inbox "b" (step sampleBehave ⟨["a", "b", "c"]⟩ (.message "b" "taskUpdated" "t")).2
      = [⟨"taskUpdated", "t"⟩] :=
  ⟨(taskUpdated_fanout sampleBehave ⟨["a", "b", "c"]⟩ "b" "t" (by decide) (by decide)).1,
   (taskUpdated_fanout sampleBehave ⟨["a", "b", "c"]⟩ "b" "t" (by decide) (by decide)).2.1 "b"
     (by decide)⟩

/-- C10. Handling a taskUpdated message leaves the set of connected sockets as it
was, and any step that changes the set is a connect or a disconnect. -/
theorem broadcast_keeps_membership (behave : Handler → Request → Outcome) (hub : Hub)
    (sender : SocketId) (task : Payload) (input : Input) :
    (step behave hub (.message sender "taskUpdated" task)).1.connected = hub.connected ∧
    ((step behave hub input).1.connected ≠ hub.connected →
      (∃ sid hs, input = .connect sid hs) ∨ (∃ sid, input = .disconnect sid)) := by
  refine ⟨by rw [step_message_fst], ?_⟩
  intro hne
  cases input with
  | connect sid hs => exact Or.inl ⟨sid, hs, rfl⟩
  | disconnect sid => exact Or.inr ⟨sid, rfl⟩
  | message sid event payload => exact absurd (by rw [step_message_fst]) hne
  | http req => exact absurd rfl hne

/-- A connect changes the membership, and the theorem classifies it as such. -/
theorem broadcast_keeps_membership_witness :
    (step sampleBehave ⟨["a"]⟩ (.connect "b" ⟨none, none⟩)).1.connected ≠ ["a"] ∧
    ((∃ sid hs, Input.connect "b" ⟨none, none⟩ = .connect sid hs) ∨
      (∃ sid, Input.connect "b" ⟨none, none⟩ = .disconnect sid)) :=
  ⟨by decide,
   (broadcast_keeps_membership sampleBehave ⟨["a"]⟩ "a" "t" (.connect "b" ⟨none, none⟩)).2
     (by decide)⟩

/-- C7. Handling a disconnect for the same id twice in a row: the second call
changes nothing and does nothing (the step function is total, so there is no
error), the set after the second call is the set after the first, of the same
size, and the id is absent from it. -/
theorem disconnect_idempotent (behave : Handler → Request → Outcome) (hub : Hub)
    (sid : SocketId) :
    step behave (step behave hub (.disconnect sid)).1 (.disconnect sid)
      = ((step behave hub (.disconnect sid)).1, []) ∧
    (step behave (step behave hub (.disconnect sid)).1 (.disconnect sid)).1.connected.length
      = (step behave hub (.disconnect sid)).1.connected.length ∧
    sid ∉ (step behave hub (.disconnect sid)).1.connected := by
  have habsent : sid ∉ (step behave hub (.disconnect sid)).1.connected := by
    by_cases h : sid ∈ hub.connected
    · simp [step, h, List.mem_filter]
    · simp [step, h]
  have hsecond : step behave (step behave hub (.disconnect sid)).1 (.disconnect sid)
      = ((step behave hub (.disconnect sid)).1, []) := by
    generalize (step behave hub (.disconnect sid)).1 = hub1 at habsent
    simp [step, habsent]
  exact ⟨hsecond, by rw [hsecond], habsent⟩

/-- C6. A socket that is not connected when a payload is broadcast gets nothing
from that broadcast, now or later: over any continuation of the run, in which it
may connect, its inbox is what it would be had the broadcast not happened. The
connection handler sends nothing, and the broadcast leaves the state, which holds
no payloads, as it was. -/
theorem no_replay (behave : Handler → Request → Outcome) (hub : Hub)
    (sender : SocketId) (task : Payload) (late : SocketId) (rest : List Input)
    (hlate : late ∉ hub.connected) :
    inbox late (run behave hub (.message sender "taskUpdated" task :: rest)).2
      = inbox late (run behave hub rest).2 ∧
    (∀ (h : Hub) (sid : SocketId) (hs : Handshake),
      sends (step behave h (.connect sid hs)).2 = []) ∧
    (step behave hub (.message sender "taskUpdated" task)).1 = hub := by
  refine ⟨?_, ?_, step_message_fst behave hub sender _ task⟩
  · simp only [run, step_message_fst, inbox_append]
    by_cases h : sender ∈ hub.connected
    · rw [step_message_taskUpdated behave hub sender h task]
      have : inbox late (Effect.log ("Task Updated: " ++ task) :: ioEmit hub "taskUpdated" task)
          = inbox late (ioEmit hub "taskUpdated" task) := by
        simp [inbox, List.filterMap_cons]
      rw [this, inbox_ioEmit_of_not_mem hub late hlate]
      rfl
    · simp [step, h, inbox]
  · intro h sid hs
    by_cases h1 : sid ∈ h.connected
    · simp [step, h1, sends]
    · by_cases h2 : admits hs = true <;> simp [step, h1, h2, sends, onConnection]

/-- A socket connecting after a broadcast and present for the next one gets only the next one. -/
theorem no_replay_witness :
    inbox "late" (run sampleBehave ⟨["a"]⟩
      [.message "a" "taskUpdated" "first", .connect "late" ⟨none, none⟩,
       .message "a" "taskUpdated" "second"]).2 = [⟨"taskUpdated", "second"⟩] :=
  ((no_replay sampleBehave ⟨["a"]⟩ "a" "first" "late"
    [.connect "late" ⟨none, none⟩, .message "a" "taskUpdated" "second"] (by decide)).1).trans
    (by decide)

/-- C5. Two payloads handled by the taskUpdated handler in the order E1, E2, with
any inputs in between and after: a socket connected at both moments has E1 and
then E2 in its inbox, in that order, each exactly once, separated by exactly what
the inputs in between delivered to it. -/
theorem broadcast_fifo (behave : Handler → Request → Outcome) (hub : Hub)
    (a b sid : SocketId) (E1 E2 : Payload) (mid post : List Input)
    (hnodup : hub.connected.Nodup)
    (ha : a ∈ hub.connected) (hsid1 : sid ∈ hub.connected)
    (hb : b ∈ (run behave hub mid).1.connected)
    (hsid2 : sid ∈ (run behave hub mid).1.connected) :
    inbox sid (run behave hub
        (.message a "taskUpdated" E1 :: (mid ++ .message b "taskUpdated" E2 :: post))).2
      = ⟨"taskUpdated", E1⟩ :: (inbox sid (run behave hub mid).2 ++
          ⟨"taskUpdated", E2⟩ :: inbox sid (run behave (run behave hub mid).1 post).2) := by
  have hnodup2 := run_nodup behave mid hub hnodup
  have hlog : ∀ (task : Payload) (rest : List Effect),
      inbox sid (Effect.log ("Task Updated: " ++ task) :: rest) = inbox sid rest := by
    intro task rest
    simp [inbox, List.filterMap_cons]
  have hfirst : inbox sid (step behave hub (.message a "taskUpdated" E1)).2
      = [⟨"taskUpdated", E1⟩] := by
    rw [step_message_taskUpdated behave hub a ha E1, hlog]
    exact inbox_ioEmit_of_mem hub hnodup sid hsid1 _ _
  have hsecond : inbox sid
      (step behave (run behave hub mid).1 (.message b "taskUpdated" E2)).2
      = [⟨"taskUpdated", E2⟩] := by
    rw [step_message_taskUpdated behave _ b hb E2, hlog]
    exact inbox_ioEmit_of_mem _ hnodup2 sid hsid2 _ _
  simp only [run, step_message_fst, run_append, inbox_append, hfirst, hsecond]
  simp

/-- Two broadcasts with a third socket connecting in between. -/
theorem broadcast_fifo_witness :
    inbox "b" (run sampleBehave ⟨["a", "b"]⟩
        (.message "a" "taskUpdated" "e1" ::
          ([.connect "c" ⟨none, none⟩] ++ .message "c" "taskUpdated" "e2" :: []))).2
      = ⟨"taskUpdated", "e1"⟩ ::
          (inbox "b" (run sampleBehave ⟨["a", "b"]⟩ [.connect "c" ⟨none, none⟩]).2 ++
            ⟨"taskUpdated", "e2"⟩ ::
              inbox "b" (run sampleBehave
                (run sampleBehave ⟨["a", "b"]⟩ [.connect "c" ⟨none, none⟩]).1 []).2) :=
  broadcast_fifo sampleBehave ⟨["a", "b"]⟩ "a" "c" "b" "e1" "e2" [.connect "c" ⟨none, none⟩] []
    (by decide) (by decide) (by decide) (by decide) (by decide)

/-! ### Hub: admission and triggers -/

/-- C2, the claim refuted. A connection attempt that presents no credential is
admitted: it joins the connected sockets and runs the connection handler, it
receives the next broadcast, and a message it sends is broadcast to everyone. -/
theorem uncredentialed_socket_admitted :
    step sampleBehave ⟨["a"]⟩ (.connect "x" ⟨none, none⟩)
      = (⟨["a", "x"]⟩, [.log "User connected: x"]) ∧
    inbox "x" (run sampleBehave ⟨["a"]⟩
      [.connect "x" ⟨none, none⟩, .message "a" "taskUpdated" "t"]).2
      = [⟨"taskUpdated", "t"⟩] ∧
    sends (run sampleBehave ⟨["a"]⟩
      [.connect "x" ⟨none, none⟩, .message "x" "taskUpdated" "forged"]).2
      = [("a", ⟨"taskUpdated", "forged"⟩), ("x", ⟨"taskUpdated", "forged"⟩)] := by
  decide

/-- C2 as amended. No credential check guards socket connections: a connection
attempt with a fresh id, whatever its handshake carries or lacks, joins the set of
connected sockets and runs the connection handler; from then on it receives every
taskUpdated broadcast and every taskUpdated message it sends is broadcast to all
connected sockets. -/
theorem every_socket_admitted (behave : Handler → Request → Outcome) (hub : Hub)
    (sid : SocketId) (hs : Handshake) (hfresh : sid ∉ hub.connected) :
    sid ∈ (step behave hub (.connect sid hs)).1.connected ∧
    (step behave hub (.connect sid hs)).2 = [.log ("User connected: " ++ sid)] ∧
    (∀ sender task, sender ∈ (step behave hub (.connect sid hs)).1.connected →
      ⟨"taskUpdated", task⟩ ∈ inbox sid
        (step behave (step behave hub (.connect sid hs)).1
          (.message sender "taskUpdated" task)).2) ∧
    (∀ other task, other ∈ (step behave hub (.connect sid hs)).1.connected →
      ⟨"taskUpdated", task⟩ ∈ inbox other
        (step behave (step behave hub (.connect sid hs)).1
          (.message sid "taskUpdated" task)).2) := by
  have hstep : step behave hub (.connect sid hs)
      = (⟨hub.connected ++ [sid]⟩, [.log ("User connected: " ++ sid)]) := by
    simp [step, hfresh, admits, ioMiddlewares, onConnection]
  have hmem : sid ∈ (⟨hub.connected ++ [sid]⟩ : Hub).connected := by simp
  have hdeliver : ∀ (h : Hub) (sender target : SocketId) (task : Payload),
      sender ∈ h.connected → target ∈ h.connected →
      ⟨"taskUpdated", task⟩ ∈ inbox target (step behave h (.message sender "taskUpdated" task)).2 := by
    intro h sender target task h1 h2
    rw [step_message_taskUpdated behave h sender h1 task]
    have : inbox target (Effect.log ("Task Updated: " ++ task) :: ioEmit h "taskUpdated" task)
        = List.replicate (h.connected.count target) ⟨"taskUpdated", task⟩ := by
      rw [← inbox_emit_list]
      simp [inbox, List.filterMap_cons, ioEmit]
    rw [this]
    exact List.mem_replicate.mpr ⟨by simpa [List.count_eq_zero] using h2, rfl⟩
  rw [hstep]
  exact ⟨hmem, rfl, fun sender task h => hdeliver _ sender sid task h hmem,
    fun other task h => hdeliver _ sid other task hmem h⟩

/-- Admission of a socket that presents neither origin nor credential. -/
theorem every_socket_admitted_witness :
    "x" ∈ (step sampleBehave ⟨["a"]⟩ (.connect "x" ⟨none, none⟩)).1.connected ∧
    (step sampleBehave ⟨["a"]⟩ (.connect "x" ⟨none, none⟩)).2 = [.log ("User connected: " ++ "x")] :=
  ⟨(every_socket_admitted sampleBehave ⟨["a"]⟩ "x" ⟨none, none⟩ (by decide)).1,
   (every_socket_admitted sampleBehave ⟨["a"]⟩ "x" ⟨none, none⟩ (by decide)).2.1⟩

/-! ### Express: the protected routes -/

/-- The trace of a request under one of the three protected mounts, when no
handler rewrites the request path: the two global middlewares, then
`authenticateToken`, then the router of that mount, each reached only when the
one before it called `next()`. -/
theorem dispatch_protected (behave : Handler → Request → Outcome) (req : Request)
    (x : String) (r : Handler) (rest : List String)
    (hx : (x, r) ∈ [("events", Handler.eventRoutes), ("attendees", Handler.attendeeRoutes),
      ("tasks", Handler.taskRoutes)])
    (hpath : req.path = "api" :: x :: rest)
    (hurl : ∀ h q q1, behave h q = .next q1 → q1.path = q.path) :
    dispatch behave stack req =
      match behave .cors req with
      | .next q1 =>
        (.cors, .next q1) ::
          (match behave .json q1 with
           | .next q2 =>
             (.json, .next q2) ::
               (match behave .authenticateToken q2 with
                | .next q3 => [(.authenticateToken, .next q3), (r, behave r q3)]
                | o => [(.authenticateToken, o)])
           | o => [(.json, o)])
      | o => [(.cors, o)] := by
  cases hc : behave .cors req with
  | next q1 =>
    have h1 : q1.path = "api" :: x :: rest := (hurl _ _ _ hc).trans hpath
    cases hj : behave .json q1 with
    | next q2 =>
      have h2 : q2.path = "api" :: x :: rest := (hurl _ _ _ hj).trans h1
      cases ha : behave .authenticateToken q2 with
      | next q3 =>
        have h3 : q3.path = "api" :: x :: rest := (hurl _ _ _ ha).trans h2
        simp only [List.mem_cons, Prod.mk.injEq, List.mem_singleton, List.not_mem_nil,
          or_false] at hx
        rcases hx with ⟨rfl, rfl⟩ | ⟨rfl, rfl⟩ | ⟨rfl, rfl⟩
        · cases hr : behave .eventRoutes q3 with
          | next q4 =>
            have h4 : q4.path = "api" :: "events" :: rest := (hurl _ _ _ hr).trans h3
            simp [stack, dispatch, mountMatches, hpath, h1, h2, h3, h4, hc, hj, ha, hr]
          | respond st =>
            simp [stack, dispatch, mountMatches, hpath, h1, h2, h3, hc, hj, ha, hr]
          | fail st =>
            simp [stack, dispatch, mountMatches, hpath, h1, h2, h3, hc, hj, ha, hr]
        · cases hr : behave .attendeeRoutes q3 with
          | next q4 =>
            have h4 : q4.path = "api" :: "attendees" :: rest := (hurl _ _ _ hr).trans h3
            simp [stack, dispatch, mountMatches, hpath, h1, h2, h3, h4, hc, hj, ha, hr]
          | respond st =>
            simp [stack, dispatch, mountMatches, hpath, h1, h2, h3, hc, hj, ha, hr]
          | fail st =>
            simp [stack, dispatch, mountMatches, hpath, h1, h2, h3, hc, hj, ha, hr]
        · cases hr : behave .taskRoutes q3 with
          | next q4 =>
            simp [stack, dispatch, mountMatches, hpath, h1, h2, h3, hc, hj, ha, hr]
          | respond st =>
            simp [stack, dispatch, mountMatches, hpath, h1, h2, h3, hc, hj, ha, hr]
          | fail st =>
            simp [stack, dispatch, mountMatches, hpath, h1, h2, h3, hc, hj, ha, hr]
      | respond st =>
        simp only [List.mem_cons, Prod.mk.injEq, List.mem_singleton, List.not_mem_nil,
          or_false] at hx
        rcases hx with ⟨rfl, rfl⟩ | ⟨rfl, rfl⟩ | ⟨rfl, rfl⟩ <;>
          simp [stack, dispatch, mountMatches, hpath, h1, h2, hc, hj, ha]
      | fail st =>
        simp only [List.mem_cons, Prod.mk.injEq, List.mem_singleton, List.not_mem_nil,
          or_false] at hx
        rcases hx with ⟨rfl, rfl⟩ | ⟨rfl, rfl⟩ | ⟨rfl, rfl⟩ <;>
          simp [stack, dispatch, mountMatches, hpath, h1, h2, hc, hj, ha]
    | respond st => simp [stack, dispatch, mountMatches, hpath, h1, hc, hj]
    | fail st => simp [stack, dispatch, mountMatches, hpath, h1, hc, hj]
  | respond st => simp [stack, dispatch, mountMatches, hpath, hc]
  | fail st => simp [stack, dispatch, mountMatches, hpath, hc]

/-- C3. For a request whose path is under the mount of a resource router (one of
/api/events, /api/attendees, /api/tasks), with handlers that leave the request
path alone: a resource router that runs is the router of that mount, it runs last
and right after a call of `authenticateToken` that passed control on; when
`authenticateToken` does not pass control on, no resource router runs; and when
the two global middlewares pass control on, `authenticateToken` runs, and the
router runs as soon as `authenticateToken` passes control on. -/
theorem protected_routes_gated (behave : Handler → Request → Outcome) (req : Request)
    (m : List String) (r : Handler)
    (hlayer : (⟨m, r⟩ : Layer) ∈ stack) (hr : isResourceRouter r = true)
    (hpath : mountMatches m req.path = true)
    (hurl : ∀ h q q1, behave h q = .next q1 → q1.path = q.path) :
    (∀ r1 o, isResourceRouter r1 = true → (r1, o) ∈ dispatch behave stack req →
      r1 = r ∧ ∃ pre q, dispatch behave stack req
        = pre ++ [(.authenticateToken, .next q), (r, o)] ∧
        ∀ p, p ∈ pre → p.1 = .cors ∨ p.1 = .json) ∧
    (∀ o, (Handler.authenticateToken, o) ∈ dispatch behave stack req → (∀ q, o ≠ .next q) →
      ∀ r1 o1, isResourceRouter r1 = true → (r1, o1) ∉ dispatch behave stack req) ∧
    (∀ q1 q2, behave .cors req = .next q1 → behave .json q1 = .next q2 →
      (Handler.authenticateToken, behave .authenticateToken q2) ∈ dispatch behave stack req ∧
      ∀ q3, behave .authenticateToken q2 = .next q3 →
        (r, behave r q3) ∈ dispatch behave stack req) := by
  obtain ⟨x, rest, hx, hp⟩ : ∃ x rest,
      (x, r) ∈ [("events", Handler.eventRoutes), ("attendees", Handler.attendeeRoutes),
        ("tasks", Handler.taskRoutes)] ∧ req.path = "api" :: x :: rest := by
    simp only [stack, List.mem_cons, Layer.mk.injEq, List.mem_singleton, List.not_mem_nil,
      or_false] at hlayer
    rcases hlayer with ⟨_, rfl⟩ | ⟨_, rfl⟩ | ⟨_, rfl⟩ | ⟨_, rfl⟩ | ⟨rfl, rfl⟩ | ⟨_, rfl⟩ |
      ⟨rfl, rfl⟩ | ⟨_, rfl⟩ | ⟨rfl, rfl⟩ <;> simp [isResourceRouter] at hr
    · obtain ⟨rest, hrest⟩ : ∃ rest, req.path = "api" :: "events" :: rest := by
        have h := List.isPrefixOf_iff_prefix.mp hpath
        obtain ⟨t, ht⟩ := h
        exact ⟨t, by simpa using ht.symm⟩
      exact ⟨"events", rest, by simp, hrest⟩
    · obtain ⟨rest, hrest⟩ : ∃ rest, req.path = "api" :: "attendees" :: rest := by
        have h := List.isPrefixOf_iff_prefix.mp hpath
        obtain ⟨t, ht⟩ := h
        exact ⟨t, by simpa using ht.symm⟩
      exact ⟨"attendees", rest, by simp, hrest⟩
    · obtain ⟨rest, hrest⟩ : ∃ rest, req.path = "api" :: "tasks" :: rest := by
        have h := List.isPrefixOf_iff_prefix.mp hpath
        obtain ⟨t, ht⟩ := h
        exact ⟨t, by simpa using ht.symm⟩
      exact ⟨"tasks", rest, by simp, hrest⟩
  have hrouter : ∀ r1, isResourceRouter r1 = true →
      r1 ≠ .cors ∧ r1 ≠ .json ∧ r1 ≠ .authenticateToken := by
    intro r1 h1
    cases r1 <;> simp [isResourceRouter] at h1 ⊢
  have hrr := hrouter r hr
  rw [dispatch_protected behave req x r rest hx hp hurl]
  refine ⟨?_, ?_, ?_⟩
  · intro r1 o h1 hmem
    have hne := hrouter r1 h1
    cases hc : behave .cors req with
    | next q1 =>
      cases hj : behave .json q1 with
      | next q2 =>
        cases ha : behave .authenticateToken q2 with
        | next q3 =>
          simp only [hc, hj, ha, List.mem_cons, Prod.mk.injEq, List.mem_singleton,
            List.not_mem_nil, or_false] at hmem
          rcases hmem with ⟨h, _⟩ | ⟨h, _⟩ | ⟨h, _⟩ | ⟨h, ho⟩
          · exact absurd h hne.1
          · exact absurd h hne.2.1
          · exact absurd h hne.2.2
          · refine ⟨h, [(.cors, .next q1), (.json, .next q2)], q3, ?_, ?_⟩
            · simp [hc, hj, ha, ho]
            · intro p hpmem
              simp only [List.mem_cons, List.mem_singleton, List.not_mem_nil, or_false] at hpmem
              rcases hpmem with rfl | rfl
              · exact Or.inl rfl
              · exact Or.inr rfl
        | respond st =>
          simp only [hc, hj, ha, List.mem_cons, Prod.mk.injEq, List.mem_singleton,
            List.not_mem_nil, or_false] at hmem
          rcases hmem with ⟨h, _⟩ | ⟨h, _⟩ | ⟨h, _⟩
          · exact absurd h hne.1
          · exact absurd h hne.2.1
          · exact absurd h hne.2.2
        | fail st =>
          simp only [hc, hj, ha, List.mem_cons, Prod.mk.injEq, List.mem_singleton,
            List.not_mem_nil, or_false] at hmem
          rcases hmem with ⟨h, _⟩ | ⟨h, _⟩ | ⟨h, _⟩
          · exact absurd h hne.1
          · exact absurd h hne.2.1
          · exact absurd h hne.2.2
      | respond st =>
        simp only [hc, hj, List.mem_cons, Prod.mk.injEq, List.mem_singleton,
          List.not_mem_nil, or_false] at hmem
        rcases hmem with ⟨h, _⟩ | ⟨h, _⟩
        · exact absurd h hne.1
        · exact absurd h hne.2.1
      | fail st =>
        simp only [hc, hj, List.mem_cons, Prod.mk.injEq, List.mem_singleton,
          List.not_mem_nil, or_false] at hmem
        rcases hmem with ⟨h, _⟩ | ⟨h, _⟩
        · exact absurd h hne.1
        · exact absurd h hne.2.1
    | respond st =>
      simp only [hc, List.mem_singleton, Prod.mk.injEq] at hmem
      exact absurd hmem.1 hne.1
    | fail st =>
      simp only [hc, List.mem_singleton, Prod.mk.injEq] at hmem
      exact absurd hmem.1 hne.1
  · intro o hmem hrej r1 o1 h1
    have hne := hrouter r1 h1
    cases hc : behave .cors req with
    | next q1 =>
      cases hj : behave .json q1 with
      | next q2 =>
        cases ha : behave .authenticateToken q2 with
        | next q3 =>
          simp only [hc, hj, ha, List.mem_cons, Prod.mk.injEq, List.mem_singleton,
            List.not_mem_nil, or_false] at hmem
          rcases hmem with ⟨h, _⟩ | ⟨h, _⟩ | ⟨_, ho⟩ | ⟨h, _⟩
          · exact absurd h (by decide)
          · exact absurd h (by decide)
          · exact absurd ho (hrej q3)
          · exact absurd h.symm hrr.2.2
        | respond st => simp [hj, ha, hne]
        | fail st => simp [hj, ha, hne]
      | respond st => simp [hj, hne]
      | fail st => simp [hj, hne]
    | respond st => simp [hne]
    | fail st => simp [hne]
  · intro q1 q2 hc hj
    refine ⟨?_, ?_⟩
    · cases ha : behave .authenticateToken q2 <;> simp [hc, hj, ha]
    · intro q3 ha
      simp [hc, hj, ha]

theorem sampleBehave_keeps_path (h : Handler) (q q1 : Request)
    (hq : sampleBehave h q = .next q1) : q1.path = q.path := by
  cases h with
  | authenticateToken =>
    cases hauth : q.authorization with
    | none => simp [sampleBehave, hauth] at hq
    | some u =>
      simp only [sampleBehave, hauth, Outcome.next.injEq] at hq
      rw [← hq]
  | _ =>
    simp only [sampleBehave, Outcome.next.injEq] at hq
    rw [← hq]

/-- A request for a task with an Authorization header reaches `authenticateToken` and then the task router. -/
theorem protected_routes_gated_witness :
    (Handler.authenticateToken,
        sampleBehave .authenticateToken ⟨"PUT", ["api", "tasks", "7"], some "tok", none⟩)
      ∈ dispatch sampleBehave stack ⟨"PUT", ["api", "tasks", "7"], some "tok", none⟩ ∧
    (Handler.taskRoutes,
        sampleBehave .taskRoutes ⟨"PUT", ["api", "tasks", "7"], some "tok", some "tok"⟩)
      ∈ dispatch sampleBehave stack ⟨"PUT", ["api", "tasks", "7"], some "tok", none⟩ :=
  ⟨((protected_routes_gated sampleBehave ⟨"PUT", ["api", "tasks", "7"], some "tok", none⟩
      ["api", "tasks"] .taskRoutes (by decide) (by decide) (by decide)
      sampleBehave_keeps_path).2.2 _ _ rfl rfl).1,
   ((protected_routes_gated sampleBehave ⟨"PUT", ["api", "tasks", "7"], some "tok", none⟩
      ["api", "tasks"] .taskRoutes (by decide) (by decide) (by decide)
      sampleBehave_keeps_path).2.2 _ _ rfl rfl).2 _ rfl⟩

/-! ### Hub: what triggers a broadcast -/

/-- C4. The code at the failing input: from the empty server, one client connects
and sends a taskUpdated message. The payload is broadcast although no HTTP request
was handled at all, so no router ran and no task was mutated. -/
theorem broadcast_without_mutation :
    sends (run sampleBehave Hub.empty
      [.connect "a" ⟨none, none⟩, .message "a" "taskUpdated" "anything"]).2
      = [("a", ⟨"taskUpdated", "anything"⟩)] ∧
    noSendBeforeTaskRouter (run sampleBehave Hub.empty
      [.connect "a" ⟨none, none⟩, .message "a" "taskUpdated" "anything"]).2 = false := by
  decide

end Server
